import Mathlib

/-!
Verification of the error-boundary and request-envelope layer of the
commonwealthity service, shallowly embedded from
`crates/service/src/error.rs`, `crates/common/src/api/mod.rs` and
`crates/common/src/api/account.rs`.
-/

/-- Error taxonomy from `crates/service/src/error.rs` (`pub enum Error`).
The two detail-carrying variants hold their `String` payloads. -/
inductive Error where
  | Unauthenticated
  | Unauthorized
  | CredentialsInvalid
  | HandleAlreadyExists
  | JwtMalformed
  | JwtExpired
  | JwtInvalid
  | WsInitNotObject
  | WsInitTokenNotString
  | ServerMisconfigured (detail : String)
  | InternalServerError (detail : String)
  | NotImplemented
deriving DecidableEq, Repr

/-- Display rendering of `Error` generated by thiserror from the
`#[error("...")]` attributes: a fixed template per variant, with no
interpolation anywhere (the payload variants use fixed text). This is what
`err.to_string()` returns in the source. -/
def Error.display : Error → String
  | .Unauthenticated => "Unauthenticated"
  | .Unauthorized => "Unauthorized"
  | .CredentialsInvalid => "Credentials are invalid"
  | .HandleAlreadyExists => "Handle already exists"
  | .JwtMalformed => "JWT is malformed"
  | .JwtExpired => "JWT is expired"
  | .JwtInvalid => "JWT is invalid"
  | .WsInitNotObject => "GraphQL WebSocket init must be an object, null, or undefined"
  | .WsInitTokenNotString => "GraphQL WebSocket init `token` must be a string or undefined"
  | .ServerMisconfigured _ => "The server is misconfigured"
  | .InternalServerError _ => "An internal server error occurred"
  | .NotImplemented => "Feature is not implemented yet"

/-- Derived `Debug` rendering of `Error` (Rust `format!("{:?}", self)`):
the variant name, with payloads shown via their own debug form. The payload
branches are unreachable from `Error.code` (matched earlier there); their
payload text is rendered with Lean `String.quote`, which like Rust escapes
and quotes the contents. -/
def Error.debugFmt : Error → String
  | .Unauthenticated => "Unauthenticated"
  | .Unauthorized => "Unauthorized"
  | .CredentialsInvalid => "CredentialsInvalid"
  | .HandleAlreadyExists => "HandleAlreadyExists"
  | .JwtMalformed => "JwtMalformed"
  | .JwtExpired => "JwtExpired"
  | .JwtInvalid => "JwtInvalid"
  | .WsInitNotObject => "WsInitNotObject"
  | .WsInitTokenNotString => "WsInitTokenNotString"
  | .ServerMisconfigured d => "ServerMisconfigured(" ++ d.quote ++ ")"
  | .InternalServerError d => "InternalServerError(" ++ d.quote ++ ")"
  | .NotImplemented => "NotImplemented"

/-- `Error::code` from the source: the two detail-carrying variants map to
their bare variant name, every other variant to its debug rendering. -/
def Error.code : Error → String
  | .ServerMisconfigured _ => "ServerMisconfigured"
  | .InternalServerError _ => "InternalServerError"
  | e => e.debugFmt

/-- Severity levels of the `tracing` crate macros used by the source. -/
inductive LogLevel where
  | error
  | warn
  | info
deriving DecidableEq, Repr

/-- `Error::log` from the source: emits one `tracing::error!` record for the
three notable variants (with the detail interpolated for the two
detail-carrying ones) and nothing for every other variant. The emission is
modelled as the optional record produced. -/
def Error.log : Error → Option (LogLevel × String)
  | .ServerMisconfigured err => some (.error, "Server misconfigured: " ++ err)
  | .InternalServerError err => some (.error, "Internal server error: " ++ err)
  | .NotImplemented => some (.error, "Unimplemented feature called")
  | _ => none

/-- `Error::from_err` from the source: wraps `err.to_string()` in
`InternalServerError`. The argument here is the message the error value
displays as. -/
def Error.from_err (msg : String) : Error :=
  .InternalServerError msg

/-- `impl From<String> for Error` from the source. -/
def Error.fromString (err : String) : Error :=
  .InternalServerError err

/-- `impl From<&String> for Error` from the source; a borrowed string carries
the same text as the owned one in a value-level embedding. -/
def Error.fromStringRef (err : String) : Error :=
  .InternalServerError err

/-- `impl From<&str> for Error` from the source. -/
def Error.fromStr (err : String) : Error :=
  .InternalServerError err

/-- Error kinds of the jsonwebtoken library (`jsonwebtoken::errors::ErrorKind`).
Payload-carrying variants keep the display text of their payload where the
source interpolates it; `Crypto` carries `ring::error::Unspecified`, a unit
value, so it is modelled payload-free. -/
inductive JwtErrorKind where
  | InvalidToken
  | InvalidSignature
  | InvalidEcdsaKey
  | InvalidRsaKey (msg : String)
  | RsaFailedSigning
  | InvalidAlgorithmName
  | InvalidKeyFormat
  | MissingRequiredClaim (claim : String)
  | ExpiredSignature
  | InvalidIssuer
  | InvalidAudience
  | InvalidSubject
  | ImmatureSignature
  | InvalidAlgorithm
  | MissingAlgorithm
  | Base64 (msg : String)
  | Json (msg : String)
  | Utf8 (msg : String)
  | Crypto
deriving DecidableEq, Repr

/-- `impl From<JwtError> for Error` from the source, matching on
`err.kind()`. Note the `Crypto(_)` arm is `"JWT crypto error".into()`, which
goes through `impl From<&str> for Error`. -/
def Error.fromJwt : JwtErrorKind → Error
  | .InvalidToken | .InvalidAlgorithmName | .InvalidKeyFormat => .JwtMalformed
  | .InvalidEcdsaKey => .ServerMisconfigured "EcDSA key invalid"
  | .InvalidRsaKey err => .ServerMisconfigured ("RSA key is invalid: " ++ err)
  | .RsaFailedSigning => .ServerMisconfigured "RSA signing failed"
  | .ExpiredSignature => .JwtExpired
  | .Crypto => Error.fromStr "JWT crypto error"
  | _ => .JwtInvalid

/-- Storage-engine database error (`surrealdb::error::Db`), abstracted to the
one variant the source matches on (`Ds`, datastore-construction failure,
carrying its message string) and a stand-in for every other variant carrying
its display text. -/
inductive SrlDbError where
  | Ds (msg : String)
  | Other (msg : String)
deriving DecidableEq, Repr

/-- Storage-engine top-level error (`surrealdb::Error`): either a database
error or an API error (the latter abstracted to its display text). -/
inductive SrlError where
  | Db (err : SrlDbError)
  | Api (msg : String)
deriving DecidableEq, Repr

/-- Display text of a storage-engine error (`err.to_string()`); the library
delegates to the message of the inner error. -/
def SrlError.display : SrlError → String
  | .Db (.Ds msg) => msg
  | .Db (.Other msg) => msg
  | .Api msg => msg

/-- `impl From<SrlError> for Error` from the source: the datastore-setup
failure path becomes `ServerMisconfigured` with its message; every other
storage error goes through `Error::from_err`. -/
def Error.fromSrl : SrlError → Error
  | .Db (.Ds err) => .ServerMisconfigured err
  | err => Error.from_err err.display

/-- Cryptographic verification failure type `ring::error::Unspecified`,
a unit struct carrying no information. -/
inductive RingUnspecified where
  | unspecified
deriving DecidableEq, Repr

/-- `impl From<ring::error::Unspecified> for Error` from the source: ignores
the value entirely. -/
def Error.fromRing : RingUnspecified → Error :=
  fun _ => .CredentialsInvalid

/-- `impl From<Base64DecodeError> for Error` from the source: delegates to
`Error::from_err`, so it carries the display text of the decode error. -/
def Error.fromBase64 (msg : String) : Error :=
  Error.from_err msg

/-- Client payload `ErrorData { code, message }` from the source. -/
structure ErrorData where
  code : String
  message : String
deriving DecidableEq, Repr

/-- `impl From<Error> for ErrorResponse` from the source: the HTTP status
code (modelled by its numeric value, as in `hyper::StatusCode`) together with
the client payload. The `err.log()` side effect performed at the same point
is modelled separately by `Error.log`. -/
def errorResponse (err : Error) : Nat × ErrorData :=
  let status : Nat :=
    match err with
    | .Unauthenticated | .CredentialsInvalid | .JwtExpired | .JwtInvalid => 401
    | .Unauthorized => 403
    | .HandleAlreadyExists => 409
    | .JwtMalformed | .WsInitNotObject | .WsInitTokenNotString => 400
    | .ServerMisconfigured _ | .InternalServerError _ | .NotImplemented => 500
  (status, { code := err.code, message := err.display })

/-- Substring containment, as Rust `str::contains` on literal patterns:
`sub` occurs contiguously inside `s`. -/
def containsSubstr (s sub : String) : Prop :=
  ∃ pre post, pre ++ sub ++ post = s

/-- Request envelope `Message<T>` from `crates/common/src/api/mod.rs`; the
nonce is a 64-bit unsigned integer, modelled as a natural number (it is never
operated on arithmetically). -/
structure Message (T : Type) where
  nonce : Nat
  payload : T
deriving Repr

/-- Login request `LoginReq` from `crates/common/src/api/account.rs`; the
borrowed string fields are modelled by value. -/
structure LoginReq where
  uname : String
  pword : String
deriving DecidableEq, Repr

/-- Account method union `api::account::Method` from the source. -/
inductive AccountMethod where
  | Login (req : LoginReq)
deriving DecidableEq, Repr

/-- Top-level method union `api::Method` from the source. -/
inductive Method where
  | Account (m : AccountMethod)
deriving DecidableEq, Repr

/-- Account entity from `crates/common/src/api/account.rs`. -/
structure Account where
  id : String
  name : Option String
deriving DecidableEq, Repr

/-- Login result `LoginRes` from `crates/common/src/api/account.rs`. -/
inductive LoginRes where
  | Success (account : Account)
  | Failed
deriving DecidableEq, Repr

/-- `impl Deref for LoginRes` from the source: `Target = Self` and
`fn deref(&self) -> &Self { &self }` hands back a reference to the very same
value, which in a value-level embedding is the identity. -/
def LoginRes.deref (r : LoginRes) : LoginRes :=
  r

/-- Modelled from the spec: the dispatcher of section 4.3 is not present
under `src/` (only the envelope and method types are); per the spec,
`dispatch(envelope)` selects the handler by exhaustive match on the payload
tag and returns a response envelope whose nonce is copied unchanged from the
request. The single `Login` handler is an external collaborator, passed in as
a function. -/
def dispatch {R : Type} (handleLogin : LoginReq → R) (env : Message Method) : Message R :=
  { nonce := env.nonce
    payload := match env.payload with
      | .Account (.Login req) => handleLogin req }

theorem strAppendEmpty (s : String) : s ++ "" = s := by
  cases s
  simp [String.instAppend, String.append]

/-- C2: converting each `Error` variant to an `ErrorResponse` yields exactly
the HTTP status of the spec 4.2 table: `Unauthenticated`,
`CredentialsInvalid`, `JwtExpired`, `JwtInvalid` give 401; `Unauthorized`
gives 403; `HandleAlreadyExists` gives 409; `JwtMalformed`,
`WsInitNotObject`, `WsInitTokenNotString` give 400; `ServerMisconfigured`,
`InternalServerError`, `NotImplemented` give 500. `errorResponse` is a
function, so no variant maps to more than one status. -/
theorem errorResponse_status_table :
    (errorResponse .Unauthenticated).1 = 401 ∧
    (errorResponse .CredentialsInvalid).1 = 401 ∧
    (errorResponse .JwtExpired).1 = 401 ∧
    (errorResponse .JwtInvalid).1 = 401 ∧
    (errorResponse .Unauthorized).1 = 403 ∧
    (errorResponse .HandleAlreadyExists).1 = 409 ∧
    (errorResponse .JwtMalformed).1 = 400 ∧
    (errorResponse .WsInitNotObject).1 = 400 ∧
    (errorResponse .WsInitTokenNotString).1 = 400 ∧
    (∀ d, (errorResponse (.ServerMisconfigured d)).1 = 500) ∧
    (∀ d, (errorResponse (.InternalServerError d)).1 = 500) ∧
    (errorResponse .NotImplemented).1 = 500 := by
  refine ⟨rfl, rfl, rfl, rfl, rfl, rfl, rfl, rfl, rfl, ?_, ?_, rfl⟩ <;>
    intro d <;> rfl

/-- C1 counterexample: the claim that the rendered client message never
contains the detail as a substring fails at detail = "server": the fixed
template "The server is misconfigured" itself contains "server". -/
theorem serverMisconfigured_message_contains_own_word :
    containsSubstr (errorResponse (Error.ServerMisconfigured "server")).2.message "server" := by
  refine ⟨"The ", " is misconfigured", ?_⟩
  rfl

/-- C1 amended: for every detail string d, the client message rendered from
`ServerMisconfigured d` and `InternalServerError d` is a fixed template that
does not depend on d (so d can occur in it only when d happens to be a
substring of the fixed template), the code is the bare variant name with the
detail stripped, and the logged record always contains d. -/
theorem detail_variants_render_fixed_and_log_detail :
    ∀ d : String,
      (errorResponse (.ServerMisconfigured d)).2.message = "The server is misconfigured" ∧
      (errorResponse (.ServerMisconfigured d)).2.code = "ServerMisconfigured" ∧
      Error.log (.ServerMisconfigured d) = some (.error, "Server misconfigured: " ++ d) ∧
      containsSubstr ("Server misconfigured: " ++ d) d ∧
      (errorResponse (.InternalServerError d)).2.message = "An internal server error occurred" ∧
      (errorResponse (.InternalServerError d)).2.code = "InternalServerError" ∧
      Error.log (.InternalServerError d) = some (.error, "Internal server error: " ++ d) ∧
      containsSubstr ("Internal server error: " ++ d) d := by
  intro d
  refine ⟨rfl, rfl, rfl, ⟨"Server misconfigured: ", "", ?_⟩,
          rfl, rfl, rfl, ⟨"Internal server error: ", "", ?_⟩⟩ <;>
    rw [strAppendEmpty]

/-- C3 counterexample: a generic crypto-layer failure does not classify to
`JwtInvalid`; the `Crypto(_)` arm goes through the `&str` conversion and
yields `InternalServerError "JWT crypto error"`. -/
theorem fromJwt_crypto_not_jwtInvalid :
    Error.fromJwt .Crypto = .InternalServerError "JWT crypto error" ∧
    Error.fromJwt .Crypto ≠ .JwtInvalid := by
  exact ⟨rfl, by decide⟩

/-- C3 amended: invalid token structure, invalid algorithm name and invalid
key format classify to `JwtMalformed`; invalid EC key, invalid RSA key and
RSA signing failure classify to `ServerMisconfigured`; expired signature
classifies to `JwtExpired`; a generic crypto-layer error classifies to
`InternalServerError "JWT crypto error"`; and every remaining failure kind
classifies to `JwtInvalid`. -/
theorem fromJwt_classification :
    Error.fromJwt .InvalidToken = .JwtMalformed ∧
    Error.fromJwt .InvalidAlgorithmName = .JwtMalformed ∧
    Error.fromJwt .InvalidKeyFormat = .JwtMalformed ∧
    Error.fromJwt .InvalidEcdsaKey = .ServerMisconfigured "EcDSA key invalid" ∧
    (∀ m, Error.fromJwt (.InvalidRsaKey m) = .ServerMisconfigured ("RSA key is invalid: " ++ m)) ∧
    Error.fromJwt .RsaFailedSigning = .ServerMisconfigured "RSA signing failed" ∧
    Error.fromJwt .ExpiredSignature = .JwtExpired ∧
    Error.fromJwt .Crypto = .InternalServerError "JWT crypto error" ∧
    Error.fromJwt .InvalidSignature = .JwtInvalid ∧
    (∀ c, Error.fromJwt (.MissingRequiredClaim c) = .JwtInvalid) ∧
    Error.fromJwt .InvalidIssuer = .JwtInvalid ∧
    Error.fromJwt .InvalidAudience = .JwtInvalid ∧
    Error.fromJwt .InvalidSubject = .JwtInvalid ∧
    Error.fromJwt .ImmatureSignature = .JwtInvalid ∧
    Error.fromJwt .InvalidAlgorithm = .JwtInvalid ∧
    Error.fromJwt .MissingAlgorithm = .JwtInvalid ∧
    (∀ m, Error.fromJwt (.Base64 m) = .JwtInvalid) ∧
    (∀ m, Error.fromJwt (.Json m) = .JwtInvalid) ∧
    (∀ m, Error.fromJwt (.Utf8 m) = .JwtInvalid) := by
  refine ⟨rfl, rfl, rfl, rfl, fun m => rfl, rfl, rfl, rfl, rfl, fun c => rfl,
          rfl, rfl, rfl, rfl, rfl, rfl, fun m => rfl, fun m => rfl, fun m => rfl⟩

/-- C4 counterexample: `NotImplemented` is logged through `tracing::error!`,
an error-severity record, not a warning-severity one. -/
theorem log_notImplemented_error_not_warn :
    Error.log .NotImplemented = some (.error, "Unimplemented feature called") ∧
    LogLevel.error ≠ LogLevel.warn := by
  exact ⟨rfl, by decide⟩

/-- C4 amended: `log` emits an error-severity record with full detail for
`ServerMisconfigured` and `InternalServerError`, an error-severity record
(not a warning) for `NotImplemented`, and emits nothing for every other
variant. -/
theorem log_severity_rule :
    (∀ d, Error.log (.ServerMisconfigured d) = some (.error, "Server misconfigured: " ++ d)) ∧
    (∀ d, Error.log (.InternalServerError d) = some (.error, "Internal server error: " ++ d)) ∧
    Error.log .NotImplemented = some (.error, "Unimplemented feature called") ∧
    Error.log .Unauthenticated = none ∧
    Error.log .Unauthorized = none ∧
    Error.log .CredentialsInvalid = none ∧
    Error.log .HandleAlreadyExists = none ∧
    Error.log .JwtMalformed = none ∧
    Error.log .JwtExpired = none ∧
    Error.log .JwtInvalid = none ∧
    Error.log .WsInitNotObject = none ∧
    Error.log .WsInitTokenNotString = none := by
  refine ⟨fun d => rfl, fun d => rfl, rfl, rfl, rfl, rfl, rfl, rfl, rfl, rfl, rfl, rfl⟩

/-- C5: every cryptographic-verification failure value converts to
`CredentialsInvalid`, regardless of the underlying cause; the conversion
ignores its argument, so all verification failures are indistinguishable. -/
theorem fromRing_always_credentialsInvalid :
    ∀ u : RingUnspecified, Error.fromRing u = .CredentialsInvalid := by
  intro u
  rfl

/-- C6: a storage-layer error converts to `ServerMisconfigured` exactly in
the datastore-construction failure case `Db (Ds m)` (carrying m); both
remaining constructor shapes, which exhaust `SrlError`, convert to
`InternalServerError` carrying the raw display message as detail. -/
theorem fromSrl_classification :
    (∀ m, Error.fromSrl (.Db (.Ds m)) = .ServerMisconfigured m) ∧
    (∀ m, Error.fromSrl (.Db (.Other m)) = .InternalServerError m) ∧
    (∀ m, Error.fromSrl (.Api m) = .InternalServerError m) := by
  refine ⟨fun m => rfl, fun m => rfl, fun m => rfl⟩

/-- C7: every catch-all text conversion — `From<String>`, `From<&String>`,
`From<&str>` and `from_err` on an error displaying as t — produces
`InternalServerError` carrying exactly t as detail. -/
theorem text_conversions_internalServerError :
    ∀ t : String,
      Error.fromString t = .InternalServerError t ∧
      Error.fromStringRef t = .InternalServerError t ∧
      Error.fromStr t = .InternalServerError t ∧
      Error.from_err t = .InternalServerError t := by
  intro t
  exact ⟨rfl, rfl, rfl, rfl⟩

/-- C8: for every nonce N, payload p and login handler, dispatching the
envelope with nonce N returns an envelope whose nonce equals N — the nonce
is copied unchanged from request to response. -/
theorem dispatch_preserves_nonce :
    ∀ (R : Type) (handleLogin : LoginReq → R) (N : Nat) (p : Method),
      (dispatch handleLogin (Message.mk N p)).nonce = N := by
  intro R handleLogin N p
  rfl

/-- C9: the `Deref` implementation on `LoginRes` is inert — for every value
r, `deref` returns r itself, the identity. -/
theorem loginRes_deref_identity :
    ∀ r : LoginRes, LoginRes.deref r = r := by
  intro r
  rfl

/-- C10: noninterference of the client envelope from detail payloads — for
all detail strings d₁ and d₂, the full client-visible response (status,
code, message) for `ServerMisconfigured d₁` equals the one for
`ServerMisconfigured d₂`, and likewise for `InternalServerError`. -/
theorem errorResponse_detail_noninterference :
    ∀ d₁ d₂ : String,
      errorResponse (.ServerMisconfigured d₁) = errorResponse (.ServerMisconfigured d₂) ∧
      errorResponse (.InternalServerError d₁) = errorResponse (.InternalServerError d₂) := by
  intro d₁ d₂
  exact ⟨rfl, rfl⟩
